import Mathlib

/-!
Verification development for the S-Bus protocol integration
(custom_components/sbus): a shallow embedding of the CRC-16 engine, the
two telegram codecs (the Ether-S-Bus Format A codec of sbus_protocol.py
and the generic Format B codec of sbus_protocol_base.py), the transport
drivers' send/receive error behaviour, the protocol-engine operations and
the update coordinator's tick, together with theorems settling the frozen
claims about them.

Bytes are modelled as natural numbers; every byte produced by the
embedded builders is below 256, matching Python bytes objects.  Fallible
code (struct packing/unpacking, protocol validation) is modelled with
Option and Except.
-/

namespace SBus

/-! Constants from const.py. -/

def MIN_TELEGRAM_SIZE : Nat := 12
def MAX_REGISTER_ADDRESS : Nat := 9999
def MAX_REGISTER_COUNT : Nat := 32
def MAX_REGISTER_VALUE : Nat := 0xFFFFFFFF
def ATTR_REQUEST : Nat := 0x00
def ATTR_RESPONSE : Nat := 0x01
def ATTR_ACK : Nat := 0x02
def CMD_READ_FLAG : Nat := 0x02
def CMD_READ_REGISTER : Nat := 0x06
def CMD_WRITE_FLAG : Nat := 0x0B
def CMD_WRITE_REGISTER : Nat := 0x0E
def SYSREG_FIRMWARE : Nat := 600
def SYSREG_PRODUCT_TYPE_START : Nat := 605
def SYSREG_PRODUCT_TYPE_END : Nat := 608
def SYSREG_HW_VERSION : Nat := 609
def SYSREG_SERIAL_START : Nat := 611
def SYSREG_SERIAL_END : Nat := 612

/-- Error kinds raised by the protocol/transport code.  `timeout` is
SBusTimeoutError, `crc` is SBusCRCError, `protocol r` is SBusProtocolError
(with the reason recorded for precision), `valueError` is Python's
ValueError raised by argument validation, and `structError` is the
struct.error raised by struct.pack/unpack on out-of-range fields or
short buffers.  SBusTimeoutError and SBusCRCError are subclasses of
SBusProtocolError in the source; where a Python `except` clause
distinguishes them the embedding matches on the constructors
accordingly. -/
inductive ProtoReason where
  | tooShort
  | lengthMismatch
  | seqMismatch
  | badAttribute
  | respLength
  | notConnected
  deriving DecidableEq

inductive SErr where
  | timeout
  | crc
  | protocol (reason : ProtoReason)
  | valueError
  | structError
  | indexError
  deriving DecidableEq

instance {ε α : Type} [DecidableEq ε] [DecidableEq α] :
    DecidableEq (Except ε α) := fun x y =>
  match x, y with
  | .ok a, .ok b =>
    if h : a = b then .isTrue (by rw [h])
    else .isFalse (by intro hh; cases hh; exact h rfl)
  | .ok _, .error _ => .isFalse (by intro hh; cases hh)
  | .error _, .ok _ => .isFalse (by intro hh; cases hh)
  | .error e, .error f =>
    if h : e = f then .isTrue (by rw [h])
    else .isFalse (by intro hh; cases hh; exact h rfl)

/-! CRC-16 engine (identical 256-entry table in sbus_protocol.py and
sbus_protocol_base.py). -/

def CRC16_TABLE : List Nat := [
  0x0000, 0x1021, 0x2042, 0x3063, 0x4084, 0x50A5, 0x60C6, 0x70E7,
  0x8108, 0x9129, 0xA14A, 0xB16B, 0xC18C, 0xD1AD, 0xE1CE, 0xF1EF,
  0x1231, 0x0210, 0x3273, 0x2252, 0x52B5, 0x4294, 0x72F7, 0x62D6,
  0x9339, 0x8318, 0xB37B, 0xA35A, 0xD3BD, 0xC39C, 0xF3FF, 0xE3DE,
  0x2462, 0x3443, 0x0420, 0x1401, 0x64E6, 0x74C7, 0x44A4, 0x5485,
  0xA56A, 0xB54B, 0x8528, 0x9509, 0xE5EE, 0xF5CF, 0xC5AC, 0xD58D,
  0x3653, 0x2672, 0x1611, 0x0630, 0x76D7, 0x66F6, 0x5695, 0x46B4,
  0xB75B, 0xA77A, 0x9719, 0x8738, 0xF7DF, 0xE7FE, 0xD79D, 0xC7BC,
  0x48C4, 0x58E5, 0x6886, 0x78A7, 0x0840, 0x1861, 0x2802, 0x3823,
  0xC9CC, 0xD9ED, 0xE98E, 0xF9AF, 0x8948, 0x9969, 0xA90A, 0xB92B,
  0x5AF5, 0x4AD4, 0x7AB7, 0x6A96, 0x1A71, 0x0A50, 0x3A33, 0x2A12,
  0xDBFD, 0xCBDC, 0xFBBF, 0xEB9E, 0x9B79, 0x8B58, 0xBB3B, 0xAB1A,
  0x6CA6, 0x7C87, 0x4CE4, 0x5CC5, 0x2C22, 0x3C03, 0x0C60, 0x1C41,
  0xEDAE, 0xFD8F, 0xCDEC, 0xDDCD, 0xAD2A, 0xBD0B, 0x8D68, 0x9D49,
  0x7E97, 0x6EB6, 0x5ED5, 0x4EF4, 0x3E13, 0x2E32, 0x1E51, 0x0E70,
  0xFF9F, 0xEFBE, 0xDFDD, 0xCFFC, 0xBF1B, 0xAF3A, 0x9F59, 0x8F78,
  0x9188, 0x81A9, 0xB1CA, 0xA1EB, 0xD10C, 0xC12D, 0xF14E, 0xE16F,
  0x1080, 0x00A1, 0x30C2, 0x20E3, 0x5004, 0x4025, 0x7046, 0x6067,
  0x83B9, 0x9398, 0xA3FB, 0xB3DA, 0xC33D, 0xD31C, 0xE37F, 0xF35E,
  0x02B1, 0x1290, 0x22F3, 0x32D2, 0x4235, 0x5214, 0x6277, 0x7256,
  0xB5EA, 0xA5CB, 0x95A8, 0x8589, 0xF56E, 0xE54F, 0xD52C, 0xC50D,
  0x34E2, 0x24C3, 0x14A0, 0x0481, 0x7466, 0x6447, 0x5424, 0x4405,
  0xA7DB, 0xB7FA, 0x8799, 0x97B8, 0xE75F, 0xF77E, 0xC71D, 0xD73C,
  0x26D3, 0x36F2, 0x0691, 0x16B0, 0x6657, 0x7676, 0x4615, 0x5634,
  0xD94C, 0xC96D, 0xF90E, 0xE92F, 0x99C8, 0x89E9, 0xB98A, 0xA9AB,
  0x5844, 0x4865, 0x7806, 0x6827, 0x18C0, 0x08E1, 0x3882, 0x28A3,
  0xCB7D, 0xDB5C, 0xEB3F, 0xFB1E, 0x8BF9, 0x9BD8, 0xABBB, 0xBB9A,
  0x4A75, 0x5A54, 0x6A37, 0x7A16, 0x0AF1, 0x1AD0, 0x2AB3, 0x3A92,
  0xFD2E, 0xED0F, 0xDD6C, 0xCD4D, 0xBDAA, 0xAD8B, 0x9DE8, 0x8DC9,
  0x7C26, 0x6C07, 0x5C64, 0x4C45, 0x3CA2, 0x2C83, 0x1CE0, 0x0CC1,
  0xEF1F, 0xFF3E, 0xCF5D, 0xDF7C, 0xAF9B, 0xBFBA, 0x8FD9, 0x9FF8,
  0x6E17, 0x7E36, 0x4E55, 0x5E74, 0x2E93, 0x3EB2, 0x0ED1, 0x1EF0]

/-- SBusProtocol._calculate_crc (sbus_protocol.py):
crc = ((crc << 8) ^ table[(crc >> 8) ^ byte]) & 0xFFFF, initial 0x0000. -/
def calculateCrcUdp (data : List Nat) : Nat :=
  data.foldl
    (fun crc byte =>
      ((crc <<< 8) ^^^ CRC16_TABLE.getD ((crc >>> 8) ^^^ byte) 0) &&& 0xFFFF)
    0x0000

/-- SBusProtocolBase.calculate_crc (sbus_protocol_base.py):
crc = ((crc << 8) & 0xFFFF) ^ table[(crc >> 8) ^ byte], initial 0x0000. -/
def calculateCrc (data : List Nat) : Nat :=
  data.foldl
    (fun crc byte =>
      ((crc <<< 8) &&& 0xFFFF) ^^^ CRC16_TABLE.getD ((crc >>> 8) ^^^ byte) 0)
    0x0000

/-! Byte packing helpers mirroring the struct format codes used by the
source.  struct.pack raises struct.error when a value does not fit its
field; the Option-returning variants model that. -/

/-- Big-endian 2-byte encoding of a value below 2^16 (format code H). -/
def be16 (n : Nat) : List Nat := [n / 256 % 256, n % 256]

/-- Big-endian 4-byte encoding of a value below 2^32 (format code I). -/
def be32 (n : Nat) : List Nat :=
  [n / 16777216 % 256, n / 65536 % 256, n / 256 % 256, n % 256]

/-- Big-endian 4-byte word read at offset k of a byte list, as done by
struct.unpack of a 4-byte slice. -/
def be32At (data : List Nat) (k : Nat) : Nat :=
  data.getD k 0 * 16777216 + data.getD (k + 1) 0 * 65536 +
    data.getD (k + 2) 0 * 256 + data.getD (k + 3) 0

/-- Big-endian 4-byte value from the first four bytes, as struct.unpack
of format I applied to response[0:4]. -/
def be32Get (t : List Nat) : Nat := be32At t 0

/-- Big-endian 2-byte value from bytes at positions p and p+1, as
struct.unpack of format H. -/
def be16At (t : List Nat) (p : Nat) : Nat :=
  t.getD p 0 * 256 + t.getD (p + 1) 0

/-! Format A codec: the Ether-S-Bus telegram layout of sbus_protocol.py. -/

/-- SBusProtocol._get_next_sequence: the 16-bit wrapping counter.
Returns the new counter value, which is both the produced sequence
number and the updated engine state. -/
def nextSequence (s : Nat) : Nat := (s + 1) &&& 0xFFFF

/-- SBusProtocol._build_telegram.  The PDU is packed with struct format
BHBBB (version, type, sequence, attribute, station) followed by a B for
the command; struct.pack raises struct.error when a B-field value is 256
or more, which the Option models.  The input s is the value of
self._sequence before the internal _get_next_sequence call; the second
component is the engine's counter afterwards. -/
def buildTelegramA (station : Nat) (s : Nat) (command : Nat)
    (data : List Nat) (attr : Nat) : Option (List Nat) × Nat :=
  let sequence := nextSequence s
  if sequence < 256 ∧ attr < 256 ∧ station < 256 ∧ command < 256 then
    let pdu := [0x01] ++ be16 0x00 ++ [sequence, attr, station]
      ++ [command] ++ data
    let total_length := 4 + pdu.length + 2
    let telegram := be32 total_length ++ pdu
    let crc := calculateCrcUdp telegram
    (some (telegram ++ be16 crc), sequence)
  else
    (none, sequence)

/-- SBusProtocol._validate_response: minimum length, embedded length
field, CRC over all but the trailing two bytes, sequence, attribute —
in that order.  Returns the data payload response[11:-2]. -/
def validateResponseA (response : List Nat) (expectedSequence : Nat) :
    Except SErr (List Nat) :=
  if response.length < MIN_TELEGRAM_SIZE then
    .error (.protocol .tooShort)
  else
    let length := be32Get response
    if response.length ≠ length then
      .error (.protocol .lengthMismatch)
    else
      let receivedCrc := be16At response (response.length - 2)
      let calculatedCrc := calculateCrcUdp (response.take (response.length - 2))
      if receivedCrc ≠ calculatedCrc then
        .error .crc
      else
        let sequence := response.getD 7 0
        let attr := response.getD 8 0
        if sequence ≠ expectedSequence then
          .error (.protocol .seqMismatch)
        else if attr ≠ ATTR_RESPONSE ∧ attr ≠ ATTR_ACK then
          .error (.protocol .badAttribute)
        else
          .ok ((response.take (response.length - 2)).drop 11)

/-- Well-formed Format A telegram with the given header fields and
payload, used to state properties about device responses.  Same layout
as buildTelegramA but with the sequence supplied directly. -/
def mkTelegramA (sequence attr station command : Nat)
    (data : List Nat) : List Nat :=
  let pdu := [0x01] ++ be16 0x00 ++ [sequence, attr, station]
    ++ [command] ++ data
  let telegram := be32 (4 + pdu.length + 2) ++ pdu
  telegram ++ be16 (calculateCrcUdp telegram)

example :
    validateResponseA (mkTelegramA 1 ATTR_RESPONSE 0 CMD_READ_REGISTER []) 1
      = .ok [] := by decide

example :
    (buildTelegramA 0 0 CMD_READ_REGISTER [0, 100, 3] ATTR_REQUEST).1
      = some (mkTelegramA 1 ATTR_REQUEST 0 CMD_READ_REGISTER [0, 100, 3]) := by
  decide

example : (buildTelegramA 0 255 CMD_READ_REGISTER [] ATTR_REQUEST).1 = none := by
  decide

/-! Format B codec: the generic S-Bus telegram layout of
sbus_protocol_base.py. -/

/-- SBusProtocolBase._build_telegram.  The header is packed with struct
format BBBB (telegram number, station, ATTR_REQUEST, command) followed
by format HH for address and count; struct.pack raises struct.error
when a field value does not fit, which the Option models.  tn is the
telegram counter self._telegram_counter before the call; the second
component is its value afterwards. -/
def buildTelegramB (station : Nat) (tn : Nat) (cmd : Nat)
    (address : Nat) (count : Nat) (data : List Nat) :
    Option (List Nat) × Nat :=
  let tn1 := (tn + 1) % 256
  if station < 256 ∧ cmd < 256 ∧ address < 65536 ∧ count < 65536 then
    let header := [tn1, station, ATTR_REQUEST, cmd]
    let addr_count := be16 address ++ be16 count
    let telegram_body := header ++ addr_count ++ data
    let crc := calculateCrc telegram_body
    (some (telegram_body ++ be16 crc), tn1)
  else
    (none, tn1)

/-- SBusProtocolBase._validate_telegram: minimum length, CRC over all
but the trailing two bytes, attribute byte at index 2 — in that order.
Succeeds with unit; the callers slice the payload themselves. -/
def validateTelegramB (telegram : List Nat) : Except SErr Unit :=
  if telegram.length < MIN_TELEGRAM_SIZE then
    .error (.protocol .tooShort)
  else
    let receivedCrc := be16At telegram (telegram.length - 2)
    let calculatedCrc := calculateCrc (telegram.take (telegram.length - 2))
    if receivedCrc ≠ calculatedCrc then
      .error .crc
    else
      let attr := telegram.getD 2 0
      if attr ≠ ATTR_RESPONSE ∧ attr ≠ ATTR_ACK then
        .error (.protocol .badAttribute)
      else
        .ok ()

/-- Format B telegram with the given body: the body followed by its CRC,
used to state properties about device responses. -/
def mkTelegramB (body : List Nat) : List Nat :=
  body ++ be16 (calculateCrc body)

/-- Payload slice response[8:-2] taken by the base-class read paths
after validation. -/
def payloadB (response : List Nat) : List Nat :=
  (response.take (response.length - 2)).drop 8

example : validateTelegramB (mkTelegramB [0, 0, 1, 2, 0, 0, 0, 0, 0xAA, 0])
    = .ok () := by decide

/-! Register and flag payload decoding. -/

/-- Encoding of a list of 32-bit register values as consecutive
big-endian 4-byte words, as a device response payload carries them. -/
def encodeWords : List Nat → List Nat
  | [] => []
  | v :: vs => be32 v ++ encodeWords vs

/-- Register decode of SBusProtocol.read_registers (sbus_protocol.py
lines 561-571): the payload length must be exactly count*4, otherwise
SBusProtocolError; then each register is the big-endian 32-bit word at
offset 4*i. -/
def parseRegistersUdp (count : Nat) (payload : List Nat) :
    Except SErr (List Nat) :=
  if payload.length ≠ count * 4 then
    .error (.protocol .respLength)
  else
    .ok ((List.range count).map (fun i => be32At payload (i * 4)))

/-- Register decode of SBusProtocolBase.read_registers: no length
check; struct.unpack of data[i*4:(i+1)*4] for i below count, which
raises struct.error when the slice is shorter than 4 bytes (the payload
holds fewer than count words); surplus payload bytes are ignored. -/
def parseRegistersBase (count : Nat) (data : List Nat) :
    Except SErr (List Nat) :=
  if count * 4 ≤ data.length then
    .ok ((List.range count).map (fun i => be32At data (i * 4)))
  else
    .error .structError

/-- One bit test of a payload byte: bool(byte & (1 << bit_pos)). -/
def flagBit (byte : Nat) (bit_pos : Nat) : Bool :=
  byte &&& (1 <<< bit_pos) ≠ 0

/-- Inner loop of the flag decode: for bit_pos in range(8), append the
bit while fewer than count flags have been collected (SBusProtocol
breaks out of the inner loop at count, SBusProtocolBase guards each
append; both collect the same list). -/
def appendFlags (count : Nat) (fl : List Bool) (byte : Nat) : List Bool :=
  (List.range 8).foldl
    (fun fl bit_pos =>
      if count ≤ fl.length then fl else fl ++ [flagBit byte bit_pos]) fl

/-- Flag decode shared by SBusProtocol.read_flags and
SBusProtocolBase.read_flags: iterate over the payload bytes, collecting
bits LSB-first until count flags are gathered, then truncate to count. -/
def decodeFlags (count : Nat) (data : List Nat) : List Bool :=
  ((data.foldl (appendFlags count) []).take count)

example : decodeFlags 8 [0xAA] =
    [false, true, false, true, false, true, false, true] := by decide

example : (decodeFlags 32 [0xAA, 0]).length = 16 := by decide

/-! Protocol-engine operations.  A transport oracle send maps the
transmitted telegram to the raw response bytes, or none when no response
arrives in time (SBusTimeoutError).  Each operation returns its result,
the engine counter afterwards, and the list of telegrams handed to the
transport, so that before-any-transport-call properties are statable. -/

/-- SBusProtocol.read_registers (sbus_protocol.py): validates the
address and count ranges, packs start address and count (format HB),
obtains a sequence number, builds the telegram through _build_telegram
(which advances the sequence counter a second time), performs the
exchange unless the transport is absent (SBusProtocolError then), and
validates the response against the sequence obtained before building. -/
def readRegistersUdpOp (station : Nat) (s : Nat) (connected : Bool)
    (send : List Nat → Option (List Nat)) (start_address count : Nat) :
    Except SErr (List Nat) × Nat × List (List Nat) :=
  if ¬ start_address ≤ MAX_REGISTER_ADDRESS then
    (.error .valueError, s, [])
  else if ¬ (1 ≤ count ∧ count ≤ MAX_REGISTER_COUNT) then
    (.error .valueError, s, [])
  else
    let data := be16 start_address ++ [count]
    let sequence := nextSequence s
    match buildTelegramA station sequence CMD_READ_REGISTER data ATTR_REQUEST with
    | (none, s2) => (.error .structError, s2, [])
    | (some telegram, s2) =>
      if ¬ connected then (.error (.protocol .notConnected), s2, [])
      else
        match send telegram with
        | none => (.error .timeout, s2, [telegram])
        | some response =>
          match validateResponseA response sequence with
          | .error e => (.error e, s2, [telegram])
          | .ok payload => (parseRegistersUdp count payload, s2, [telegram])

/-- SBusProtocolBase.read_registers: validates the address and count
ranges, builds the Format B telegram, exchanges it, validates the
response and decodes the words of response[8:-2] without an exact
length check. -/
def readRegistersBaseOp (station : Nat) (tn : Nat)
    (send : List Nat → Option (List Nat)) (address count : Nat) :
    Except SErr (List Nat) × Nat × List (List Nat) :=
  if ¬ address ≤ MAX_REGISTER_ADDRESS then
    (.error .valueError, tn, [])
  else if ¬ (1 ≤ count ∧ count ≤ MAX_REGISTER_COUNT) then
    (.error .valueError, tn, [])
  else
    match buildTelegramB station tn CMD_READ_REGISTER address count [] with
    | (none, tn1) => (.error .structError, tn1, [])
    | (some telegram, tn1) =>
      match send telegram with
      | none => (.error .timeout, tn1, [telegram])
      | some response =>
        match validateTelegramB response with
        | .error e => (.error e, tn1, [telegram])
        | .ok () => (parseRegistersBase count (payloadB response), tn1, [telegram])

/-- SBusProtocolBase.read_flags: performs no argument validation at
all; it builds the Format B telegram directly, exchanges it, validates
the response and decodes the bits of response[8:-2]. -/
def readFlagsBaseOp (station : Nat) (tn : Nat)
    (send : List Nat → Option (List Nat)) (address count : Nat) :
    Except SErr (List Bool) × Nat × List (List Nat) :=
  match buildTelegramB station tn CMD_READ_FLAG address count [] with
  | (none, tn1) => (.error .structError, tn1, [])
  | (some telegram, tn1) =>
    match send telegram with
    | none => (.error .timeout, tn1, [telegram])
    | some response =>
      match validateTelegramB response with
      | .error e => (.error e, tn1, [telegram])
      | .ok () => (.ok (decodeFlags count (payloadB response)), tn1, [telegram])

/-- SBusProtocol.write_register (sbus_protocol.py): validates the
address and value ranges, packs address and value (format HI), obtains
a sequence number, builds the telegram through _build_telegram (which
advances the sequence counter a second time), performs the exchange and
validates the response; success yields unit. -/
def writeRegisterUdpOp (station : Nat) (s : Nat) (connected : Bool)
    (send : List Nat → Option (List Nat)) (address value : Nat) :
    Except SErr Unit × Nat × List (List Nat) :=
  if ¬ address ≤ MAX_REGISTER_ADDRESS then
    (.error .valueError, s, [])
  else if ¬ value ≤ MAX_REGISTER_VALUE then
    (.error .valueError, s, [])
  else
    let data := be16 address ++ be32 value
    let sequence := nextSequence s
    match buildTelegramA station sequence CMD_WRITE_REGISTER data ATTR_REQUEST with
    | (none, s2) => (.error .structError, s2, [])
    | (some telegram, s2) =>
      if ¬ connected then (.error (.protocol .notConnected), s2, [])
      else
        match send telegram with
        | none => (.error .timeout, s2, [telegram])
        | some response =>
          match validateResponseA response sequence with
          | .error e => (.error e, s2, [telegram])
          | .ok _ => (.ok (), s2, [telegram])

/-- SBusProtocolBase.write_register: validates the address and value
ranges, packs the value (format I, always in range after the check),
builds the Format B telegram with count 1, exchanges it and validates
the response; success yields unit. -/
def writeRegisterBaseOp (station : Nat) (tn : Nat)
    (send : List Nat → Option (List Nat)) (address value : Nat) :
    Except SErr Unit × Nat × List (List Nat) :=
  if ¬ address ≤ MAX_REGISTER_ADDRESS then
    (.error .valueError, tn, [])
  else if ¬ value ≤ MAX_REGISTER_VALUE then
    (.error .valueError, tn, [])
  else
    match buildTelegramB station tn CMD_WRITE_REGISTER address 1 (be32 value) with
    | (none, tn1) => (.error .structError, tn1, [])
    | (some telegram, tn1) =>
      match send telegram with
      | none => (.error .timeout, tn1, [telegram])
      | some response =>
        match validateTelegramB response with
        | .error e => (.error e, tn1, [telegram])
        | .ok () => (.ok (), tn1, [telegram])

/-- SBusProtocol.read_flags (sbus_protocol.py): validates that the
start address is at least 0 (always true for naturals) and the count at
least 1, packs start address and count (format HH, a struct.error when
either is 65536 or more, raised before the sequence counter moves),
obtains a sequence number, builds the telegram (advancing the counter
again), performs the exchange and decodes the flag bits of the
validated payload. -/
def readFlagsUdpOp (station : Nat) (s : Nat) (connected : Bool)
    (send : List Nat → Option (List Nat)) (start_address count : Nat) :
    Except SErr (List Bool) × Nat × List (List Nat) :=
  if ¬ 1 ≤ count then
    (.error .valueError, s, [])
  else if ¬ (start_address < 65536 ∧ count < 65536) then
    (.error .structError, s, [])
  else
    let data := be16 start_address ++ be16 count
    let sequence := nextSequence s
    match buildTelegramA station sequence CMD_READ_FLAG data ATTR_REQUEST with
    | (none, s2) => (.error .structError, s2, [])
    | (some telegram, s2) =>
      if ¬ connected then (.error (.protocol .notConnected), s2, [])
      else
        match send telegram with
        | none => (.error .timeout, s2, [telegram])
        | some response =>
          match validateResponseA response sequence with
          | .error e => (.error e, s2, [telegram])
          | .ok payload => (.ok (decodeFlags count payload), s2, [telegram])

/-- Device that answers a Format A request with a well-formed response
telegram: it copies the sequence number (byte 7), station (byte 9) and
command (byte 10) embedded in the request and carries the given
register values as big-endian 4-byte words. -/
def echoDeviceA (values : List Nat) (request : List Nat) :
    Option (List Nat) :=
  some (mkTelegramA (request.getD 7 0) ATTR_RESPONSE (request.getD 9 0)
    (request.getD 10 0) (encodeWords values))

example :
    (readRegistersUdpOp 0 0 true (echoDeviceA [100, 200, 300]) 100 3).1
      = .error (.protocol .seqMismatch) := by decide

example :
    (readRegistersUdpOp 0 0 true (echoDeviceA [100, 200, 300]) 10000 1)
      = (.error .valueError, 0, []) := by decide

/-! Transport drivers.  Each driver's send/receive is modelled over its
connection state (whether connect() has installed a transport) and a
receive outcome: some raw bytes, or none when nothing arrives within
the timeout.  All three raise SBusTimeoutError both on a true timeout
and when invoked without a connection. -/

/-- EtherSBusProtocol._send_and_receive_udp: raises SBusTimeoutError
when self._transport or self._protocol is unset, and SBusTimeoutError on
asyncio timeout. -/
def etherSendRecvUdpDriver (connected : Bool) (recv : Option (List Nat)) :
    Except SErr (List Nat) :=
  if ¬ connected then .error .timeout
  else
    match recv with
    | some response => .ok response
    | none => .error .timeout

/-- SerialSBusProtocol._send_and_receive: raises SBusTimeoutError when
self._reader or self._writer is unset, and SBusTimeoutError on asyncio
timeout. -/
def serialSendRecvDriver (connected : Bool) (recv : Option (List Nat)) :
    Except SErr (List Nat) :=
  if ¬ connected then .error .timeout
  else
    match recv with
    | some response => .ok response
    | none => .error .timeout

/-- ProfiSBusProtocol._unwrap_profibus: strips the 2-byte gateway header
when more than 2 bytes arrived, and returns the data unchanged
otherwise. -/
def unwrapProfibus (data : List Nat) : List Nat :=
  if 2 < data.length then data.drop 2 else data

/-- ProfiSBusProtocol._send_and_receive: raises SBusTimeoutError when
self._reader or self._writer is unset and on asyncio timeout; a received
gateway frame is unwrapped. -/
def profiSendRecvDriver (connected : Bool) (recv : Option (List Nat)) :
    Except SErr (List Nat) :=
  if ¬ connected then .error .timeout
  else
    match recv with
    | some raw => .ok (unwrapProfibus raw)
    | none => .error .timeout

/-- EtherSBusProtocol._send_and_receive retry loop, attempt indices i
through maxRetries - 1.  attempt i is the outcome of the i-th underlying
UDP/TCP exchange; only SBusTimeoutError is caught and retried, with a
sleep of 0.5 * 2^i seconds after every timed-out attempt except the
last.  Returns the overall outcome, the number of attempts made and the
backoff waits performed.  When the loop exhausts all attempts the last
caught timeout is re-raised (and a fresh SBusTimeoutError is raised in
the degenerate maxRetries = 0 case); both are the timeout kind. -/
def etherRetryGo (attempt : Nat → Except SErr (List Nat)) :
    (remaining : Nat) → (i : Nat) → (waits : List ℚ) →
    Except SErr (List Nat) × Nat × List ℚ
  | 0, i, waits => (.error .timeout, i, waits)
  | remaining + 1, i, waits =>
    match attempt i with
    | .ok response => (.ok response, i + 1, waits)
    | .error .timeout =>
      if remaining = 0 then
        etherRetryGo attempt remaining (i + 1) waits
      else
        etherRetryGo attempt remaining (i + 1)
          (waits ++ [(1 / 2 : ℚ) * 2 ^ i])
    | .error e => (.error e, i + 1, waits)

/-- EtherSBusProtocol._send_and_receive with the engine's fixed
self._max_retries = 3: remaining = maxRetries - i counts the attempts
still allowed, so the backoff sleep happens exactly when the failed
attempt was not the last one. -/
def etherSendReceive (attempt : Nat → Except SErr (List Nat)) :
    Except SErr (List Nat) × Nat × List ℚ :=
  etherRetryGo attempt 3 0 []

/-! Device-info composition. -/

structure DeviceInfoUdp where
  firmware_version : Nat
  product_type : String
  hw_version : Nat
  serial_number : String
  deriving DecidableEq

structure DeviceInfo where
  firmware_version : Nat
  product_type : String
  hw_version : Nat
  serial_number : String
  firmware_version_str : String
  hw_version_str : String
  deriving DecidableEq

/-- Python list indexing l[i], raising IndexError past the end. -/
def nthReg (l : List Nat) (i : Nat) : Except SErr Nat :=
  match l.drop i with
  | [] => .error .indexError
  | v :: _ => .ok v

/-- Packing of register values as consecutive big-endian words,
b-join of struct.pack per register; struct.error when a value does not
fit 32 bits. -/
def packRegistersBE (regs : List Nat) : Except SErr (List Nat) :=
  if regs.all (· < 0x100000000) then .ok (encodeWords regs)
  else .error .structError

/-- bytes.decode of codec ascii: UnicodeDecodeError (a ValueError) on
any byte of 128 or more. -/
def asciiDecode (bs : List Nat) : Except SErr (List Char) :=
  if bs.all (· < 128) then .ok (bs.map Char.ofNat)
  else .error .valueError

/-- bytes.decode of codec ascii with errors ignore: bytes of 128 or
more are dropped. -/
def asciiDecodeIgnore (bs : List Nat) : List Char :=
  (bs.filter (· < 128)).map Char.ofNat

/-- str.strip of the single character NUL: removes leading and trailing
NUL characters. -/
def stripNulChars (cs : List Char) : List Char :=
  ((cs.dropWhile (· = Char.ofNat 0)).reverse.dropWhile (· = Char.ofNat 0)).reverse

/-- Uppercase hex digit. -/
def hexChar (n : Nat) : Char := "0123456789ABCDEF".toList.getD n (Char.ofNat 48)

/-- Python format 08X applied to the values below 2^32 produced by the
register decoder: eight uppercase hex digits, zero padded. -/
def hex8 (n : Nat) : String :=
  String.mk ((List.range 8).reverse.map (fun i => hexChar ((n >>> (4 * i)) &&& 0xF)))

/-- SBusProtocolBase._format_version. -/
def formatVersion (version : Nat) : String :=
  if version = 0 then "Unknown"
  else
    toString ((version >>> 16) &&& 0xFF) ++ "." ++
      toString ((version >>> 8) &&& 0xFF) ++ "." ++ toString (version &&& 0xFF)

/-- SBusProtocol.get_device_info (sbus_protocol.py): four register
reads composed into an identity record.  No exception handling: any
failing read or decode propagates (written as an explicit raise
ladder). -/
def getDeviceInfoUdp (read : Nat → Nat → Except SErr (List Nat)) :
    Except SErr DeviceInfoUdp :=
  match read SYSREG_FIRMWARE 1 with
  | .error e => .error e
  | .ok firmware_raw =>
    match nthReg firmware_raw 0 with
    | .error e => .error e
    | .ok firmware_version =>
      match read SYSREG_PRODUCT_TYPE_START
          (SYSREG_PRODUCT_TYPE_END - SYSREG_PRODUCT_TYPE_START + 1) with
      | .error e => .error e
      | .ok product_type_raw =>
        match packRegistersBE product_type_raw with
        | .error e => .error e
        | .ok product_type_bytes =>
          match asciiDecode product_type_bytes with
          | .error e => .error e
          | .ok product_chars =>
            match read SYSREG_HW_VERSION 1 with
            | .error e => .error e
            | .ok hw_version_raw =>
              match nthReg hw_version_raw 0 with
              | .error e => .error e
              | .ok hw_version =>
                match read SYSREG_SERIAL_START
                    (SYSREG_SERIAL_END - SYSREG_SERIAL_START + 1) with
                | .error e => .error e
                | .ok serial_raw =>
                  match nthReg serial_raw 0, nthReg serial_raw 1 with
                  | .error e, _ => .error e
                  | .ok _, .error e => .error e
                  | .ok serial0, .ok serial1 =>
                    .ok ⟨firmware_version,
                      String.mk (stripNulChars product_chars),
                      hw_version, hex8 serial0 ++ hex8 serial1⟩

/-- Body of SBusProtocolBase.get_device_info before its catch-all
except clause: the same four reads, with an errors-ignore ASCII decode,
a product-type fallback and formatted version strings. -/
def getDeviceInfoBaseBody (read : Nat → Nat → Except SErr (List Nat)) :
    Except SErr DeviceInfo :=
  match read SYSREG_FIRMWARE 1 with
  | .error e => .error e
  | .ok firmware_raw =>
    match nthReg firmware_raw 0 with
    | .error e => .error e
    | .ok firmware_version =>
      match read SYSREG_PRODUCT_TYPE_START
          (SYSREG_PRODUCT_TYPE_END - SYSREG_PRODUCT_TYPE_START + 1) with
      | .error e => .error e
      | .ok product_type_raw =>
        match packRegistersBE product_type_raw with
        | .error e => .error e
        | .ok product_type_bytes =>
          let product_type :=
            String.mk (stripNulChars (asciiDecodeIgnore product_type_bytes))
          match read SYSREG_HW_VERSION 1 with
          | .error e => .error e
          | .ok hw_version_raw =>
            match nthReg hw_version_raw 0 with
            | .error e => .error e
            | .ok hw_version =>
              match read SYSREG_SERIAL_START
                  (SYSREG_SERIAL_END - SYSREG_SERIAL_START + 1) with
              | .error e => .error e
              | .ok serial_raw =>
                match nthReg serial_raw 0, nthReg serial_raw 1 with
                | .error e, _ => .error e
                | .ok _, .error e => .error e
                | .ok serial0, .ok serial1 =>
                  .ok ⟨firmware_version,
                    if product_type = "" then "SAIA PCD" else product_type,
                    hw_version, hex8 serial0 ++ hex8 serial1,
                    formatVersion firmware_version, formatVersion hw_version⟩

/-- Placeholder identity returned by SBusProtocolBase.get_device_info
when any read fails. -/
def placeholderDeviceInfo : DeviceInfo :=
  ⟨0, "SAIA PCD (Unknown)", 0, "UNKNOWN", "Unknown", "Unknown"⟩

/-- SBusProtocolBase.get_device_info: the body with every exception
swallowed and replaced by the placeholder identity. -/
def getDeviceInfoBase (read : Nat → Nat → Except SErr (List Nat)) :
    DeviceInfo :=
  match getDeviceInfoBaseBody read with
  | .ok info => info
  | .error _ => placeholderDeviceInfo

/-! Update coordinator (coordinator.py). -/

def MAX_CONSECUTIVE_ERRORS : Nat := 3

structure CoordState where
  consecutiveErrors : Nat
  isConnected : Bool
  hasCachedDeviceInfo : Bool
  deriving DecidableEq

/-- Data buckets assembled by one tick: register index to value and
flag index to state, as filled by enumerate over the read results. -/
structure TickData where
  registers : List (Nat × Nat)
  flags : List (Nat × Bool)
  deriving DecidableEq

/-- Failure of a tick: UpdateFailed raised to the host, or an exception
that none of the coordinator's except clauses catches. -/
inductive TickErr where
  | updateFailed
  | uncaught
  deriving DecidableEq

/-- Reconnection trigger of _async_update_data: not connected, or at
least MAX_CONSECUTIVE_ERRORS consecutive errors. -/
def needsReconnect (s : CoordState) : Bool :=
  !s.isConnected || decide (MAX_CONSECUTIVE_ERRORS ≤ s.consecutiveErrors)

/-- Classification of one read's outcome by the coordinator's except
ladder: SBusTimeoutError is re-raised (fatal to the tick);
SBusProtocolError — which SBusCRCError subclasses — is logged and the
bucket skipped; any other exception is not caught at all. -/
inductive ReadStep (α : Type) where
  | fatal
  | uncaughtStep
  | skip
  | value (v : α)

def readStep {α : Type} : Except SErr α → ReadStep α
  | .ok v => .value v
  | .error .timeout => .fatal
  | .error .crc => .skip
  | .error (.protocol _) => .skip
  | .error .valueError => .uncaughtStep
  | .error .structError => .uncaughtStep
  | .error .indexError => .uncaughtStep

/-- Flag-read half of the tick, given the already-assembled register
bucket. -/
def tickFlags (s : CoordState) (registersBucket : List (Nat × Nat))
    (flagRead : Except SErr (List Bool)) :
    Except TickErr TickData × CoordState :=
  match readStep flagRead with
  | .fatal =>
    (.error .updateFailed, {s with consecutiveErrors := s.consecutiveErrors + 1})
  | .uncaughtStep => (.error .uncaught, s)
  | .skip =>
    (.ok ⟨registersBucket, []⟩,
      {s with consecutiveErrors := 0, isConnected := true})
  | .value fs =>
    (.ok ⟨registersBucket, fs.enum⟩,
      {s with consecutiveErrors := 0, isConnected := true})

/-- Register-read half of the tick followed by the flag read. -/
def tickReads (s : CoordState) (registerRead : Except SErr (List Nat))
    (flagRead : Except SErr (List Bool)) :
    Except TickErr TickData × CoordState :=
  match readStep registerRead with
  | .fatal =>
    (.error .updateFailed, {s with consecutiveErrors := s.consecutiveErrors + 1})
  | .uncaughtStep => (.error .uncaught, s)
  | .skip => tickFlags s [] flagRead
  | .value vs => tickFlags s vs.enum flagRead

/-- SBusDataUpdateCoordinator._async_update_data: reconnect when
needed (resetting the error counter and invalidating cached device info
on success, raising UpdateFailed on failure), then the two independent
reads. -/
def coordinatorTick (s : CoordState) (reconnectOk : Bool)
    (registerRead : Except SErr (List Nat))
    (flagRead : Except SErr (List Bool)) :
    Except TickErr TickData × CoordState :=
  if needsReconnect s then
    if reconnectOk then
      tickReads
        {consecutiveErrors := 0, isConnected := true, hasCachedDeviceInfo := false}
        registerRead flagRead
    else
      (.error .updateFailed, {s with isConnected := false})
  else
    tickReads s registerRead flagRead

example :
    coordinatorTick ⟨0, true, true⟩ true
      (.error (.protocol .tooShort)) (.ok [true, false])
    = (.ok ⟨[], [(0, true), (1, false)]⟩, ⟨0, true, true⟩) := by decide

example :
    (coordinatorTick ⟨0, true, true⟩ true (.error .timeout) (.ok [true])).1
    = .error .updateFailed := by decide

/-- Bits of one payload byte, LSB first. -/
def bitsList (byte : Nat) : List Bool := (List.range 8).map (flagBit byte)

/-- Bit stream of a whole payload, LSB first within each byte. -/
def flagStream : List Nat → List Bool
  | [] => []
  | b :: bs => bitsList b ++ flagStream bs

/-- Single-bit corruption of the two trailing CRC bytes: bit k of the
16-bit field, with k below 8 flipping the low (second) byte and k from
8 to 15 flipping the high (first) byte. -/
def flipPair (c0 c1 k : Nat) : List Nat :=
  if k < 8 then [c0, c1 ^^^ (1 <<< k)] else [c0 ^^^ (1 <<< (k - 8)), c1]

/-- Transport scenario of the claim: the first two attempts time out,
the third succeeds. -/
def attemptTwoTimeouts : Nat → Except SErr (List Nat) :=
  fun i => if i < 2 then .error .timeout else .ok [5]


/-! Theorems settling the claims. -/

/-- Claim C1 (code bug): the round-trip property fails on the code.
With a fresh engine (sequence counter 0), read_registers(100, 3) against
a device that echoes back a well-formed response carrying the sequence
number embedded in the request telegram and the values [100, 200, 300]
as big-endian words is rejected with a sequence-mismatch protocol
error: read_registers takes expected sequence 1 from
_get_next_sequence, but _build_telegram advances the counter again, so
the request telegram embeds sequence 2 (byte 7), which validation then
refuses to match. -/
theorem readRegistersUdp_echo_rejected :
    (readRegistersUdpOp 0 0 true (echoDeviceA [100, 200, 300]) 100 3).1
      = .error (.protocol .seqMismatch) ∧
    ((readRegistersUdpOp 0 0 true (echoDeviceA [100, 200, 300]) 100 3).2.2.headD
      []).getD 7 0 = 2 ∧
    nextSequence 0 = 1 := by
  decide

/-- Claim C3 (code bug): building a Format A telegram does not succeed
for every 16-bit sequence-counter state.  From counter state 255 the
next sequence number is 256, which does not fit the one-byte B field of
the struct BHBBB pack, so _build_telegram raises struct.error; for
small counter states the build does produce the claimed layout. -/
theorem buildTelegramA_sequence_overflow :
    (∀ station command data attr,
      (buildTelegramA station 255 command data attr).1 = none) ∧
    (buildTelegramA 0 0 CMD_READ_REGISTER (be16 100 ++ [3]) ATTR_REQUEST).1
      = some (mkTelegramA 1 ATTR_REQUEST 0 CMD_READ_REGISTER (be16 100 ++ [3])) := by
  constructor
  · intro station command data attr
    have h : nextSequence 255 = 256 := by decide
    simp [buildTelegramA, h]
  · decide

/-- Claim C4, counterexample: SBusProtocol.get_device_info
(sbus_protocol.py) is a protocol engine whose get_device_info has no
exception handling: when every register read fails with a timeout the
error propagates instead of a placeholder identity being returned. -/
theorem getDeviceInfoUdp_propagates :
    getDeviceInfoUdp (fun _ _ => .error .timeout) = .error .timeout := by
  decide

/-- Claim C5, counterexample: SBusProtocolBase.read_flags performs no
argument validation: with count = 0 (below the claimed minimum of 1) no
validation error is raised; a request telegram is built and handed to
the transport (one transport call) and the empty flag list is
returned. -/
theorem readFlagsBase_count_zero_no_validation :
    (readFlagsBaseOp 0 0
      (fun _ => some (mkTelegramB [0, 0, 1, 2, 0, 0, 0, 0, 0xAA, 0])) 0 0).1
      = .ok [] ∧
    (readFlagsBaseOp 0 0
      (fun _ => some (mkTelegramB [0, 0, 1, 2, 0, 0, 0, 0, 0xAA, 0])) 0 0).2.2.length
      = 1 := by
  decide

/-- Claim C2, counterexample: SBusProtocolBase.read_registers does not
raise a protocol error when the validated response's data payload is
not exactly count*4 bytes: for count = 1 a response whose payload
carries 8 bytes (two words) passes validation and the call returns the
first word, silently ignoring the surplus. -/
theorem readRegistersBase_extra_payload_accepted :
    (readRegistersBaseOp 0 0
      (fun _ => some (mkTelegramB
        ([0, 0, 1, 6, 0, 0, 0, 0] ++ [0, 0, 0, 100, 9, 9, 9, 9]))) 100 1).1
      = .ok [100] := by
  decide

/-- Claim C7, counterexample: read_flags does not always return exactly
count booleans when the response passes telegram validation: for
read_flags(0, 32) a valid response whose payload carries only 2 flag
bytes yields 16 booleans, not 32 (neither decoder checks the payload
length against count). -/
theorem readFlagsBase_short_payload_fewer :
    (readFlagsBaseOp 0 0
      (fun _ => some (mkTelegramB ([0, 0, 1, 2, 0, 0, 0, 0] ++ [0xAA, 0xFF])))
      0 32).1
      = .ok [false, true, false, true, false, true, false, true,
             true, true, true, true, true, true, true, true] ∧
    ([false, true, false, true, false, true, false, true,
      true, true, true, true, true, true, true, true] : List Bool).length
      ≠ 32 := by
  decide

/-- Claim C8, counterexample: on the Ethernet driver, invoking
send/receive without a connection fails with the timeout kind
(SBusTimeoutError), the very same error kind produced when no response
arrives within the timeout — not a distinct connection-error kind. -/
theorem etherDriver_not_connected_timeout_kind :
    etherSendRecvUdpDriver false (some [1, 2, 3]) = .error .timeout ∧
    etherSendRecvUdpDriver true none = .error .timeout := by
  decide

/-- Claim C8, amended: on all three transport drivers, send/receive
without a connection fails with the timeout error kind (message
distinguishes it, kind does not), the same kind raised on an actual
receive timeout. -/
theorem drivers_not_connected_raise_timeout
    (recv : Option (List Nat)) :
    etherSendRecvUdpDriver false recv = .error .timeout ∧
    serialSendRecvDriver false recv = .error .timeout ∧
    profiSendRecvDriver false recv = .error .timeout := by
  refine ⟨rfl, rfl, rfl⟩

/-- Helper: the retry loop makes at most remaining further attempts
beyond index i. -/
theorem etherRetryGo_attempts_le
    (attempt : Nat → Except SErr (List Nat)) :
    ∀ remaining i waits,
      (etherRetryGo attempt remaining i waits).2.1 ≤ i + remaining := by
  intro remaining
  induction remaining with
  | zero => intro i waits; simp [etherRetryGo]
  | succ n ih =>
    intro i waits
    rcases h : attempt i with e | response
    case ok => simp [etherRetryGo, h]
    case error =>
      cases e with
      | timeout =>
        by_cases hn : n = 0
        · simp [etherRetryGo, h, hn]
        · simp [etherRetryGo, h, hn]
          exact le_trans (ih (i + 1) _) (by omega)
      | crc => simp [etherRetryGo, h]
      | protocol r => simp [etherRetryGo, h]
      | valueError => simp [etherRetryGo, h]
      | structError => simp [etherRetryGo, h]
      | indexError => simp [etherRetryGo, h]

/-- Claim C9: the Ethernet driver retry policy.  Only the timeout kind
is retried; at most 3 transport attempts happen, with backoff waits of
0.5 s then 1 s between them; the call succeeds as soon as one attempt
succeeds (two timeouts followed by a success make exactly 3 attempts);
after 3 timed-out attempts the last timeout is re-raised; a CRC or
protocol error on an attempt propagates immediately without a retry. -/
theorem etherRetry_timeout_policy :
    (∀ attempt r, attempt 0 = .error .timeout → attempt 1 = .error .timeout →
      attempt 2 = .ok r →
      etherSendReceive attempt = (.ok r, 3, [1 / 2, 1])) ∧
    (∀ attempt, attempt 0 = .error .timeout → attempt 1 = .error .timeout →
      attempt 2 = .error .timeout →
      etherSendReceive attempt = (.error .timeout, 3, [1 / 2, 1])) ∧
    (∀ attempt r, attempt 0 = .ok r →
      etherSendReceive attempt = (.ok r, 1, [])) ∧
    (∀ attempt e, e ≠ SErr.timeout → attempt 0 = .error e →
      etherSendReceive attempt = (.error e, 1, [])) ∧
    (∀ attempt, (etherSendReceive attempt).2.1 ≤ 3) := by
  refine ⟨?_, ?_, ?_, ?_, ?_⟩
  · intro attempt r h0 h1 h2
    simp [etherSendReceive, etherRetryGo, h0, h1, h2]
  · intro attempt h0 h1 h2
    simp [etherSendReceive, etherRetryGo, h0, h1, h2]
  · intro attempt r h0
    simp [etherSendReceive, etherRetryGo, h0]
  · intro attempt e he h0
    cases e with
    | timeout => exact absurd rfl he
    | crc => simp [etherSendReceive, etherRetryGo, h0]
    | protocol r => simp [etherSendReceive, etherRetryGo, h0]
    | valueError => simp [etherSendReceive, etherRetryGo, h0]
    | structError => simp [etherSendReceive, etherRetryGo, h0]
    | indexError => simp [etherSendReceive, etherRetryGo, h0]
  · intro attempt
    have := etherRetryGo_attempts_le attempt 3 0 []
    simpa [etherSendReceive] using this

/-- Witness for claim C9 at a concrete attempt sequence. -/
theorem etherRetry_timeout_policy_witness :
    etherSendReceive attemptTwoTimeouts = (.ok [5], 3, [1 / 2, 1]) :=
  etherRetry_timeout_policy.1 attemptTwoTimeouts [5] rfl rfl rfl

/-- Claim C4, amended: the engines derived from SBusProtocolBase do
substitute the placeholder identity whenever any of the four underlying
register reads fails — with any error kind — and never raise (the
function is total by its catch-all except clause). -/
theorem getDeviceInfoBase_placeholder_on_read_failure :
    ∀ read : Nat → Nat → Except SErr (List Nat),
      (∀ e, read SYSREG_FIRMWARE 1 = .error e →
        getDeviceInfoBase read = placeholderDeviceInfo) ∧
      (∀ e, read SYSREG_PRODUCT_TYPE_START
          (SYSREG_PRODUCT_TYPE_END - SYSREG_PRODUCT_TYPE_START + 1) = .error e →
        getDeviceInfoBase read = placeholderDeviceInfo) ∧
      (∀ e, read SYSREG_HW_VERSION 1 = .error e →
        getDeviceInfoBase read = placeholderDeviceInfo) ∧
      (∀ e, read SYSREG_SERIAL_START
          (SYSREG_SERIAL_END - SYSREG_SERIAL_START + 1) = .error e →
        getDeviceInfoBase read = placeholderDeviceInfo) := by
  intro read
  refine ⟨?_, ?_, ?_, ?_⟩
  · intro e h
    simp [getDeviceInfoBase, getDeviceInfoBaseBody, h, Except.bind]
  · intro e h
    rcases h1 : read SYSREG_FIRMWARE 1 with e1 | l1
    · simp [getDeviceInfoBase, getDeviceInfoBaseBody, h1, Except.bind]
    · rcases h2 : nthReg l1 0 with e2 | v
      · simp [getDeviceInfoBase, getDeviceInfoBaseBody, h1, h2, Except.bind]
      · simp [getDeviceInfoBase, getDeviceInfoBaseBody, h1, h2, h, Except.bind]
  · intro e h
    rcases h1 : read SYSREG_FIRMWARE 1 with e1 | l1
    · simp [getDeviceInfoBase, getDeviceInfoBaseBody, h1, Except.bind]
    · rcases h2 : nthReg l1 0 with e2 | v
      · simp [getDeviceInfoBase, getDeviceInfoBaseBody, h1, h2, Except.bind]
      · rcases h3 : read SYSREG_PRODUCT_TYPE_START
            (SYSREG_PRODUCT_TYPE_END - SYSREG_PRODUCT_TYPE_START + 1) with e3 | l3
        · simp [getDeviceInfoBase, getDeviceInfoBaseBody, h1, h2, h3, Except.bind]
        · rcases h4 : packRegistersBE l3 with e4 | bs
          · simp [getDeviceInfoBase, getDeviceInfoBaseBody, h1, h2, h3, h4,
              Except.bind]
          · simp [getDeviceInfoBase, getDeviceInfoBaseBody, h1, h2, h3, h4, h,
              Except.bind]
  · intro e h
    rcases h1 : read SYSREG_FIRMWARE 1 with e1 | l1
    · simp [getDeviceInfoBase, getDeviceInfoBaseBody, h1, Except.bind]
    · rcases h2 : nthReg l1 0 with e2 | v
      · simp [getDeviceInfoBase, getDeviceInfoBaseBody, h1, h2, Except.bind]
      · rcases h3 : read SYSREG_PRODUCT_TYPE_START
            (SYSREG_PRODUCT_TYPE_END - SYSREG_PRODUCT_TYPE_START + 1) with e3 | l3
        · simp [getDeviceInfoBase, getDeviceInfoBaseBody, h1, h2, h3, Except.bind]
        · rcases h4 : packRegistersBE l3 with e4 | bs
          · simp [getDeviceInfoBase, getDeviceInfoBaseBody, h1, h2, h3, h4,
              Except.bind]
          · rcases h5 : read SYSREG_HW_VERSION 1 with e5 | l5
            · simp [getDeviceInfoBase, getDeviceInfoBaseBody, h1, h2, h3, h4, h5,
                Except.bind]
            · rcases h6 : nthReg l5 0 with e6 | w
              · simp [getDeviceInfoBase, getDeviceInfoBaseBody, h1, h2, h3, h4,
                  h5, h6, Except.bind]
              · simp [getDeviceInfoBase, getDeviceInfoBaseBody, h1, h2, h3, h4,
                  h5, h6, h, Except.bind]

/-- Witness for claim C4's amended theorem: a transport on which every
read times out yields the placeholder identity. -/
theorem getDeviceInfoBase_placeholder_witness :
    getDeviceInfoBase (fun _ _ => .error .timeout) = placeholderDeviceInfo :=
  (getDeviceInfoBase_placeholder_on_read_failure
    (fun _ _ => .error .timeout)).1 .timeout rfl

/-- Claim C5, amended: the validated public operations reject
out-of-range arguments before any transport interaction.
read_registers of both engines returns ValueError for an out-of-range
address or count, write_register of both engines returns ValueError
for an out-of-range address or value, and SBusProtocol.read_flags
returns ValueError for a count below 1 — each with the sequence and
telegram counters unchanged and an empty list of transmitted telegrams
(zero transport calls). -/
theorem validation_before_io :
    (∀ station s connected send start_address count,
      (MAX_REGISTER_ADDRESS < start_address ∨ count = 0 ∨
        MAX_REGISTER_COUNT < count) →
      readRegistersUdpOp station s connected send start_address count
        = (.error .valueError, s, []) ∧
      readRegistersBaseOp station s send start_address count
        = (.error .valueError, s, [])) ∧
    (∀ station s connected send address value,
      (MAX_REGISTER_ADDRESS < address ∨ MAX_REGISTER_VALUE < value) →
      writeRegisterUdpOp station s connected send address value
        = (.error .valueError, s, []) ∧
      writeRegisterBaseOp station s send address value
        = (.error .valueError, s, [])) ∧
    (∀ station s connected send start_address,
      readFlagsUdpOp station s connected send start_address 0
        = (.error .valueError, s, [])) := by
  refine ⟨?_, ?_, ?_⟩
  · intro station s connected send a c h
    have hv : ¬ a ≤ MAX_REGISTER_ADDRESS ∨
        ¬ (1 ≤ c ∧ c ≤ MAX_REGISTER_COUNT) := by
      unfold MAX_REGISTER_ADDRESS MAX_REGISTER_COUNT at *
      omega
    constructor
    · unfold readRegistersUdpOp
      rcases hv with hv | hv
      · rw [if_pos hv]
      · by_cases ha : a ≤ MAX_REGISTER_ADDRESS
        · rw [if_neg (not_not_intro ha), if_pos hv]
        · rw [if_pos ha]
    · unfold readRegistersBaseOp
      rcases hv with hv | hv
      · rw [if_pos hv]
      · by_cases ha : a ≤ MAX_REGISTER_ADDRESS
        · rw [if_neg (not_not_intro ha), if_pos hv]
        · rw [if_pos ha]
  · intro station s connected send a v h
    have hv : ¬ a ≤ MAX_REGISTER_ADDRESS ∨ ¬ v ≤ MAX_REGISTER_VALUE := by
      unfold MAX_REGISTER_ADDRESS MAX_REGISTER_VALUE at *
      omega
    constructor
    · unfold writeRegisterUdpOp
      rcases hv with hv | hv
      · rw [if_pos hv]
      · by_cases ha : a ≤ MAX_REGISTER_ADDRESS
        · rw [if_neg (not_not_intro ha), if_pos hv]
        · rw [if_pos ha]
    · unfold writeRegisterBaseOp
      rcases hv with hv | hv
      · rw [if_pos hv]
      · by_cases ha : a ≤ MAX_REGISTER_ADDRESS
        · rw [if_neg (not_not_intro ha), if_pos hv]
        · rw [if_pos ha]
  · intro station s connected send a
    unfold readFlagsUdpOp
    rw [if_pos (by omega)]

/-- Witness for claim C5's amended theorem: read_registers(10000, 1),
write_register(5, 0x100000000) and read_flags(0, 0) each fail
validation with zero transport calls. -/
theorem validation_before_io_witness :
    (readRegistersUdpOp 0 7 true (fun _ => none) 10000 1
      = (.error .valueError, 7, []) ∧
     readRegistersBaseOp 0 7 (fun _ => none) 10000 1
      = (.error .valueError, 7, [])) ∧
    (writeRegisterUdpOp 0 7 true (fun _ => none) 5 0x100000000
      = (.error .valueError, 7, []) ∧
     writeRegisterBaseOp 0 7 (fun _ => none) 5 0x100000000
      = (.error .valueError, 7, [])) ∧
    readFlagsUdpOp 0 7 true (fun _ => none) 0 0
      = (.error .valueError, 7, []) :=
  ⟨validation_before_io.1 0 7 true (fun _ => none) 10000 1
      (Or.inl (by decide)),
   validation_before_io.2.1 0 7 true (fun _ => none) 5 0x100000000
      (Or.inr (by decide)),
   validation_before_io.2.2 0 7 true (fun _ => none) 0⟩

/-- Helper: the word encoding emits 4 bytes per value. -/
theorem encodeWords_length (vs : List Nat) :
    (encodeWords vs).length = vs.length * 4 := by
  induction vs with
  | nil => simp [encodeWords]
  | cons v vs ih => simp [encodeWords, be32, ih]; ring

/-- Helper: list indexing past a 4-byte prefix. -/
theorem getD_cons_add_four (a b c d x : Nat) (l : List Nat) (n : Nat) :
    (a :: b :: c :: d :: l).getD (n + 4) x = l.getD n x := by
  show (a :: b :: c :: d :: l).getD (n + 1 + 1 + 1 + 1) x = l.getD n x
  simp [List.getD_cons_succ]

/-- Helper: a big-endian word read past a 4-byte prefix. -/
theorem be32At_cons4 (a b c d : Nat) (l : List Nat) (n : Nat) :
    be32At (a :: b :: c :: d :: l) (n + 4) = be32At l n := by
  have e1 : n + 4 + 1 = n + 1 + 4 := by omega
  have e2 : n + 4 + 2 = n + 2 + 4 := by omega
  have e3 : n + 4 + 3 = n + 3 + 4 := by omega
  simp [be32At, e1, e2, e3, getD_cons_add_four]

/-- Helper: decoding the first word of an encoded value recovers it. -/
theorem be32At_encode_head (v : Nat) (rest : List Nat)
    (hv : v < 0x100000000) :
    be32At (be32 v ++ rest) 0 = v := by
  simp [be32, be32At]
  omega

/-- Helper: decoding an encoded register list recovers the values. -/
theorem parseRegistersUdp_encode :
    ∀ values : List Nat, (∀ v ∈ values, v < 0x100000000) →
      parseRegistersUdp values.length (encodeWords values) = .ok values := by
  intro values
  induction values with
  | nil => intro _; simp [parseRegistersUdp, encodeWords]
  | cons v vs ih =>
    intro h
    have hv : v < 0x100000000 := h v (by simp)
    have hvs : ∀ x ∈ vs, x < 0x100000000 := fun x hx => h x (by simp [hx])
    have ihm := ih hvs
    unfold parseRegistersUdp at ihm ⊢
    rw [if_neg (by simp [encodeWords_length])] at ihm
    rw [if_neg (by simp [encodeWords_length])]
    have hmap := Except.ok.inj ihm
    refine congrArg Except.ok ?_
    simp only [List.length_cons]
    rw [List.range_succ_eq_map, List.map_cons, List.map_map]
    refine List.cons_eq_cons.mpr ⟨?_, ?_⟩
    · show be32At (be32 v ++ encodeWords vs) (0 * 4) = v
      rw [Nat.zero_mul]
      exact be32At_encode_head v _ hv
    · refine Eq.trans ?_ hmap
      apply List.map_congr_left
      intro i _
      show be32At (be32 v ++ encodeWords vs) (Nat.succ i * 4)
        = be32At (encodeWords vs) (i * 4)
      have e : Nat.succ i * 4 = i * 4 + 4 := by omega
      rw [e]
      exact be32At_cons4 _ _ _ _ _ _


/-- Claim C2: decoding in SBusProtocol.read_registers after telegram
validation.  A payload whose length is not exactly count*4 raises a
protocol error; an exact payload decodes to the count big-endian words
in address order, so an echoed encoding of [100, 200, 300] yields
[100, 200, 300]. -/
theorem parseRegistersUdp_exact_length :
    (∀ count payload, payload.length ≠ count * 4 →
      parseRegistersUdp count payload = .error (.protocol .respLength)) ∧
    (∀ values : List Nat, (∀ v ∈ values, v < 0x100000000) →
      parseRegistersUdp values.length (encodeWords values) = .ok values) := by
  constructor
  · intro count payload h
    simp [parseRegistersUdp, h]
  · exact parseRegistersUdp_encode

/-- Witness for claim C2's theorem: the spec's end-to-end register
values decode exactly. -/
theorem parseRegistersUdp_exact_length_witness :
    parseRegistersUdp 3 (encodeWords [100, 200, 300]) = .ok [100, 200, 300] :=
  parseRegistersUdp_exact_length.2 [100, 200, 300] (by decide)


/-- Claim C10: on a tick whose reconnect phase does not fail (not
needed, or needed and successful), the register and flag reads are
attempted independently.  A timeout on either read fails the tick with
UpdateFailed; a non-timeout protocol error (SBusProtocolError,
including SBusCRCError) on one read only empties that read's bucket —
the other read still populates its bucket, the tick succeeds with the
partial data and the consecutive-error counter is reset to zero. -/
theorem coordinatorTick_read_policy :
    ∀ s reconnectOk registerRead flagRead,
      (needsReconnect s = false ∨ reconnectOk = true) →
      ((registerRead = .error .timeout →
        (coordinatorTick s reconnectOk registerRead flagRead).1
          = .error .updateFailed) ∧
       (((∃ vs, registerRead = .ok vs) ∨ registerRead = .error .crc ∨
          (∃ r, registerRead = .error (.protocol r))) →
        flagRead = .error .timeout →
        (coordinatorTick s reconnectOk registerRead flagRead).1
          = .error .updateFailed) ∧
       (∀ fs, (registerRead = .error .crc ∨
          (∃ r, registerRead = .error (.protocol r))) →
        flagRead = .ok fs →
        (coordinatorTick s reconnectOk registerRead flagRead).1
          = .ok ⟨[], fs.enum⟩ ∧
        (coordinatorTick s reconnectOk registerRead flagRead).2.consecutiveErrors
          = 0) ∧
       (∀ vs, registerRead = .ok vs →
        (flagRead = .error .crc ∨ (∃ r, flagRead = .error (.protocol r))) →
        (coordinatorTick s reconnectOk registerRead flagRead).1
          = .ok ⟨vs.enum, []⟩ ∧
        (coordinatorTick s reconnectOk registerRead flagRead).2.consecutiveErrors
          = 0)) := by
  intro s reconnectOk ro fo hconn
  have hstep : ∀ (s' : CoordState),
      (ro = .error .timeout →
        (tickReads s' ro fo).1 = .error .updateFailed) ∧
      (((∃ vs, ro = .ok vs) ∨ ro = .error .crc ∨
          (∃ r, ro = .error (.protocol r))) →
        fo = .error .timeout →
        (tickReads s' ro fo).1 = .error .updateFailed) ∧
      (∀ fs, (ro = .error .crc ∨ (∃ r, ro = .error (.protocol r))) →
        fo = .ok fs →
        (tickReads s' ro fo).1 = .ok ⟨[], fs.enum⟩ ∧
        (tickReads s' ro fo).2.consecutiveErrors = 0) ∧
      (∀ vs, ro = .ok vs →
        (fo = .error .crc ∨ (∃ r, fo = .error (.protocol r))) →
        (tickReads s' ro fo).1 = .ok ⟨vs.enum, []⟩ ∧
        (tickReads s' ro fo).2.consecutiveErrors = 0) := by
    intro s'
    refine ⟨?_, ?_, ?_, ?_⟩
    · intro h
      simp [tickReads, h, readStep]
    · rintro (⟨vs, h⟩ | h | ⟨r, h⟩) hf <;>
        simp [tickReads, tickFlags, h, hf, readStep]
    · rintro fs (h | ⟨r, h⟩) hf <;>
        simp [tickReads, tickFlags, h, hf, readStep]
    · rintro vs h (hf | ⟨r, hf⟩) <;>
        simp [tickReads, tickFlags, h, hf, readStep]
  by_cases hn : needsReconnect s
  · have hok : reconnectOk = true := by
      rcases hconn with hc | hc
      · rw [hn] at hc; cases hc
      · exact hc
    have ht : coordinatorTick s reconnectOk ro fo
        = tickReads ⟨0, true, false⟩ ro fo := by
      simp [coordinatorTick, hn, hok]
    rw [ht]
    exact hstep ⟨0, true, false⟩
  · have hb : needsReconnect s = false := by
      simpa using hn
    have ht : coordinatorTick s reconnectOk ro fo = tickReads s ro fo := by
      simp [coordinatorTick, hb]
    rw [ht]
    exact hstep s

/-- Witness for claim C10 at the spec's partial-failure scenario: the
register read raises a protocol error, the flag read succeeds, and the
tick reports success with only the flags bucket populated. -/
theorem coordinatorTick_read_policy_witness :
    (coordinatorTick ⟨0, true, true⟩ true (.error (.protocol .tooShort))
        (.ok [true, false])).1 = .ok ⟨[], [(0, true), (1, false)]⟩ ∧
    (coordinatorTick ⟨0, true, true⟩ true (.error (.protocol .tooShort))
        (.ok [true, false])).2.consecutiveErrors = 0 :=
  (coordinatorTick_read_policy ⟨0, true, true⟩ true
      (.error (.protocol .tooShort)) (.ok [true, false])
      (Or.inl rfl)).2.2.1 [true, false]
    (Or.inr ⟨.tooShort, rfl⟩) rfl

/-! Flag decode characterisation (claim C7). -/

/-- Helper: the guarded inner fold appends the first count - |fl| bits. -/
theorem foldl_flag_append (count byte : Nat) :
    ∀ (js : List Nat) (fl : List Bool),
      js.foldl
        (fun fl bit_pos =>
          if count ≤ fl.length then fl else fl ++ [flagBit byte bit_pos]) fl
        = fl ++ (js.map (flagBit byte)).take (count - fl.length) := by
  intro js
  induction js with
  | nil => intro fl; simp
  | cons j js ih =>
    intro fl
    by_cases h : count ≤ fl.length
    · have h0 : count - fl.length = 0 := Nat.sub_eq_zero_of_le h
      simp [List.foldl_cons, h, ih, h0]
    · have h2 : fl.length < count := Nat.lt_of_not_le h
      have e1 : count - fl.length = (count - (fl.length + 1)) + 1 := by omega
      rw [List.foldl_cons, if_neg h, ih, List.map_cons, e1,
        List.take_succ_cons, List.append_assoc]
      simp

/-- Helper: one step of the byte loop in closed form. -/
theorem appendFlags_eq (count : Nat) (fl : List Bool) (byte : Nat) :
    appendFlags count fl byte = fl ++ (bitsList byte).take (count - fl.length) :=
  foldl_flag_append count byte (List.range 8) fl

theorem bitsList_length (byte : Nat) : (bitsList byte).length = 8 := by
  simp [bitsList]

theorem flagStream_length (data : List Nat) :
    (flagStream data).length = 8 * data.length := by
  induction data with
  | nil => simp [flagStream]
  | cons b bs ih => simp [flagStream, bitsList, ih]; ring

/-- Helper: the whole byte loop in closed form. -/
theorem foldl_appendFlags_eq (count : Nat) :
    ∀ (data : List Nat) (fl : List Bool),
      data.foldl (appendFlags count) fl
        = fl ++ (flagStream data).take (count - fl.length) := by
  intro data
  induction data with
  | nil => intro fl; simp [flagStream]
  | cons b bs ih =>
    intro fl
    rw [List.foldl_cons, ih, appendFlags_eq, List.append_assoc]
    congr 1
    rw [flagStream, List.take_append_eq_append_take]
    congr 1
    rw [List.length_append, List.length_take, bitsList_length]
    have e : count - (fl.length + min (count - fl.length) 8)
        = count - fl.length - 8 := by omega
    rw [e]

/-- Helper: the flag decode is a take of the payload bit stream. -/
theorem decodeFlags_take (count : Nat) (data : List Nat) :
    decodeFlags count data = (flagStream data).take count := by
  unfold decodeFlags
  rw [foldl_appendFlags_eq]
  simp [List.take_take]

theorem getD_take {α : Type} (d : α) :
    ∀ (l : List α) (n i : Nat), i < n → (l.take n).getD i d = l.getD i d := by
  intro l
  induction l with
  | nil => intro n i _; simp
  | cons a l ih =>
    intro n i h
    cases n with
    | zero => omega
    | succ n =>
      cases i with
      | zero => simp
      | succ i => simpa using ih n i (by omega)

theorem bitsList_getD (b i : Nat) (h : i < 8) :
    (bitsList b).getD i false = flagBit b i := by
  interval_cases i <;> rfl

/-- Helper: the test the source performs on one bit equals Nat.testBit. -/
theorem flagBit_testBit (b j : Nat) : flagBit b j = b.testBit j := by
  unfold flagBit
  rw [Nat.one_shiftLeft, Nat.and_two_pow]
  cases h : b.testBit j <;> simp [h]

theorem flagStream_getD :
    ∀ (data : List Nat) (i : Nat), i < 8 * data.length →
      (flagStream data).getD i false = flagBit (data.getD (i / 8) 0) (i % 8) := by
  intro data
  induction data with
  | nil => intro i h; simp at h
  | cons b bs ih =>
    intro i h
    by_cases h8 : i < 8
    · rw [flagStream, List.getD_append _ _ _ _ (by simp [bitsList_length, h8]),
        bitsList_getD b i h8]
      have hd : i / 8 = 0 := Nat.div_eq_of_lt h8
      have hm : i % 8 = i := Nat.mod_eq_of_lt h8
      rw [hd, hm]
      rfl
    · have hge : 8 ≤ i := Nat.le_of_not_lt h8
      rw [flagStream,
        List.getD_append_right _ _ _ _ (by simp [bitsList_length, hge])]
      rw [bitsList_length]
      have hb : i - 8 < 8 * bs.length := by simp at h; omega
      rw [ih (i - 8) hb]
      have e1 : (i - 8) / 8 = i / 8 - 1 := by omega
      have e2 : (i - 8) % 8 = i % 8 := by omega
      have e3 : i / 8 = (i / 8 - 1) + 1 := by omega
      rw [e1, e2, e3]
      rfl

/-- Claim C7, amended: when read_flags receives a response that passes
telegram validation it returns min(count, 8 * payload-bytes) booleans
(exactly count when the payload carries at least ceil(count / 8)
bytes), and flag i equals bit (i mod 8) — LSB first — of payload byte
(i div 8), continuing across byte boundaries; the 0xAA example decodes
as claimed. -/
theorem decodeFlags_lsb_first :
    (∀ count data, (decodeFlags count data).length
      = min count (8 * data.length)) ∧
    (∀ count data i, i < (decodeFlags count data).length →
      (decodeFlags count data).getD i false
        = Nat.testBit (data.getD (i / 8) 0) (i % 8)) := by
  constructor
  · intro count data
    rw [decodeFlags_take, List.length_take, flagStream_length]
  · intro count data i h
    rw [decodeFlags_take, List.length_take, flagStream_length] at h
    rw [decodeFlags_take, getD_take _ _ count i (by omega),
      flagStream_getD data i (by omega), flagBit_testBit]

/-- Witness for claim C7's amended theorem: read_flags(0, 8) on payload
byte 0xAA, the spec scenario (bit 1 of 0xAA is set, so flag 1 is
true). -/
theorem decodeFlags_lsb_first_witness :
    (decodeFlags 8 [170]).length = min 8 (8 * 1) ∧
    (decodeFlags 8 [170]).getD 1 false = Nat.testBit 170 1 :=
  ⟨decodeFlags_lsb_first.1 8 [170],
    decodeFlags_lsb_first.2 8 [170] 1 (by decide)⟩

/-! Validation order and CRC tamper detection (claim C6). -/

theorem flipPair_length (c0 c1 k : Nat) : (flipPair c0 c1 k).length = 2 := by
  unfold flipPair
  split <;> rfl

/-- Helper: xor with a nonzero power of two changes a value. -/
theorem xor_one_shiftLeft_ne (b k : Nat) : b ^^^ (1 <<< k) ≠ b := by
  intro h
  have h2 : b ^^^ (b ^^^ (1 <<< k)) = b ^^^ b := congrArg (fun x => b ^^^ x) h
  rw [Nat.xor_self] at h2
  rw [← Nat.xor_assoc, Nat.xor_self, Nat.zero_xor] at h2
  simp [Nat.one_shiftLeft] at h2

/-- Helper: a single-bit flip changes the unpacked 16-bit CRC value. -/
theorem received_flip_ne (c0 c1 k : Nat) :
    (flipPair c0 c1 k).getD 0 0 * 256 + (flipPair c0 c1 k).getD 1 0
      ≠ c0 * 256 + c1 := by
  unfold flipPair
  split
  · have h := xor_one_shiftLeft_ne c1 k
    simp only [List.getD_cons_zero, List.getD_cons_succ]
    omega
  · have h := xor_one_shiftLeft_ne c0 (k - 8)
    simp only [List.getD_cons_zero, List.getD_cons_succ]
    omega

/-- Helper: what passing validation guarantees about length, the
embedded length field and the CRC. -/
theorem validateResponseA_ok_facts (t : List Nat) (seq : Nat) (p : List Nat)
    (h : validateResponseA t seq = .ok p) :
    MIN_TELEGRAM_SIZE ≤ t.length ∧ be32Get t = t.length ∧
      be16At t (t.length - 2) = calculateCrcUdp (t.take (t.length - 2)) := by
  simp only [validateResponseA] at h
  split_ifs at h with h1 h2 h3 h4 h5
  all_goals try simp at h
  exact ⟨Nat.le_of_not_lt h1, (not_ne_iff.mp h2).symm, not_ne_iff.mp h3⟩

/-- Helper: a frame that passes the two length checks but mismatches on
the CRC fails with the CRC kind. -/
theorem validateResponseA_crc_error (t : List Nat) (seq : Nat)
    (h1 : MIN_TELEGRAM_SIZE ≤ t.length) (h2 : be32Get t = t.length)
    (h3 : be16At t (t.length - 2) ≠ calculateCrcUdp (t.take (t.length - 2))) :
    validateResponseA t seq = .error .crc := by
  simp only [validateResponseA]
  rw [if_neg (Nat.not_lt.mpr h1), if_neg (not_ne_iff.mpr h2.symm), if_pos h3]

/-- Claim C6: _validate_response checks the minimum length first —
frames shorter than 12 bytes fail with the too-short protocol error
before the CRC is ever consulted — and for every telegram that passes
validation, flipping any single bit of the two trailing CRC bytes makes
validation fail with the CRC error kind (SBusCRCError), never a
protocol kind. -/
theorem validateResponseA_order_and_crc_tamper :
    (∀ t seq, t.length < MIN_TELEGRAM_SIZE →
      validateResponseA t seq = .error (.protocol .tooShort)) ∧
    (∀ u c0 c1 seq p k, k < 16 →
      validateResponseA (u ++ [c0, c1]) seq = .ok p →
      validateResponseA (u ++ flipPair c0 c1 k) seq = .error .crc) := by
  constructor
  · intro t seq h
    simp only [validateResponseA]
    rw [if_pos h]
  · intro u c0 c1 seq p k _ hok
    obtain ⟨hlen, hemb, hcrc⟩ := validateResponseA_ok_facts _ _ _ hok
    have hL : (u ++ [c0, c1]).length = u.length + 2 := by simp
    have hL2 : (u ++ flipPair c0 c1 k).length = u.length + 2 := by
      simp [flipPair_length]
    have hu10 : 10 ≤ u.length := by
      rw [hL] at hlen
      unfold MIN_TELEGRAM_SIZE at hlen
      omega
    have hbe : ∀ l2 : List Nat, be32Get (u ++ l2) = be32At u 0 := by
      intro l2
      unfold be32Get be32At
      rw [List.getD_append u l2 0 0 (by omega),
        List.getD_append u l2 0 (0 + 1) (by omega),
        List.getD_append u l2 0 (0 + 2) (by omega),
        List.getD_append u l2 0 (0 + 3) (by omega)]
    have htake : ∀ l2 : List Nat, l2.length = 2 →
        (u ++ l2).take ((u ++ l2).length - 2) = u := by
      intro l2 h2
      have e : (u ++ l2).length - 2 = u.length := by simp [h2]
      rw [e, List.take_left]
    have hrecv : ∀ l2 : List Nat, l2.length = 2 →
        be16At (u ++ l2) ((u ++ l2).length - 2)
          = l2.getD 0 0 * 256 + l2.getD 1 0 := by
      intro l2 h2
      have e : (u ++ l2).length - 2 = u.length := by simp [h2]
      unfold be16At
      rw [e, List.getD_append_right u l2 0 u.length (Nat.le_refl _), Nat.sub_self,
        List.getD_append_right u l2 0 (u.length + 1) (by omega)]
      have e2 : u.length + 1 - u.length = 1 := by omega
      rw [e2]
    have hc : c0 * 256 + c1 = calculateCrcUdp u := by
      have hc0 := hcrc
      rw [hrecv [c0, c1] rfl, htake [c0, c1] rfl] at hc0
      simpa using hc0
    refine validateResponseA_crc_error _ seq ?_ ?_ ?_
    · rw [hL2]
      rw [hL] at hlen
      exact hlen
    · rw [hbe (flipPair c0 c1 k), hL2]
      have he := hemb
      rw [hbe [c0, c1], hL] at he
      exact he
    · rw [hrecv (flipPair c0 c1 k) (flipPair_length c0 c1 k),
        htake (flipPair c0 c1 k) (flipPair_length c0 c1 k)]
      intro heq
      exact received_flip_ne c0 c1 k (heq.trans hc.symm)

/-- Witness for claim C6: a three-byte frame fails the length check
with the too-short protocol kind, and flipping bit 0 of the trailing
CRC of a concrete well-formed response telegram (header bytes followed
by CRC 0xCF47) yields the CRC error kind. -/
theorem validateResponseA_order_witness :
    validateResponseA [1, 2, 3] 0 = .error (.protocol .tooShort) ∧
    validateResponseA
      ([0, 0, 0, 13, 1, 0, 0, 1, 1, 0, 6] ++ flipPair 0xCF 0x47 0) 1
      = .error .crc :=
  ⟨validateResponseA_order_and_crc_tamper.1 [1, 2, 3] 0 (by decide),
    validateResponseA_order_and_crc_tamper.2 [0, 0, 0, 13, 1, 0, 0, 1, 1, 0, 6]
      0xCF 0x47 1 [] 0 (by decide) (by decide)⟩

end SBus
